import Mathlib

/-!
Shallow embedding of the websocket-monitor single-test execution engine
(`src/wstest.go`) and its success evaluator.  Durations are modelled as `Int`
nanosecond counts (Go `time.Duration`); the I/O environment (dial outcome,
per-read outcomes, write outcome, close-frame outcome, wall clock) is an
explicit oracle structure threaded through the engine.
-/

namespace WsMon

/-- Event kinds, step tags: the string constants of `wstest.go` lines 70-98. -/
def LogConnect : String := "connect"

def LogConnectSuccess : String := "connect_success"

def LogConnectFail : String := "connect_fail"

def LogServerClosedConnection : String := "server_closed_connection"

def LogSetReadDeadlineFailed : String := "set_read_deadline_failed"

def LogSetWriteDeadlineFailed : String := "set_write_deadline_failed"

def LogReadMessage : String := "read_message"

def LogReadMessageTimeout : String := "read_message_timeout"

def LogReadMessageNetError : String := "read_message_net_error"

def LogReadMessageError : String := "read_message_error"

def LogReadMessageSuccess : String := "read_message_success"

def LogWriteMessage : String := "write_message"

def LogWriteMessageTimeout : String := "write_message_timeout"

def LogWriteMessageNetError : String := "write_message_net_error"

def LogWriteMessageError : String := "write_message_error"

def LogWriteMessageSuccess : String := "write_message_success"

def LogClientCloseConnection : String := "client_close_connection"

def LogClientCloseConnectionSuccess : String := "client_close_connection_success"

def LogClientCloseConnectionFailed : String := "client_close_connection_failed"

/-- `StepConnect = ""` in the source (wstest.go line 91). -/
def StepConnect : String := ""

/-- `StepSendText = ""` in the source (wstest.go line 92). -/
def StepSendText : String := ""

def StepReadMessage : String := "read_message"

/-- `StepClientClose = ""` in the source (wstest.go line 94). -/
def StepClientClose : String := ""

def StepExpectedServerClose : String := "expected_server_close"

def StepUnexpectedServerClose : String := "unexpected_server_close"

/-- `websocket.TextMessage` message type constant. -/
def TextMessage : Int := 1

/-- `websocket.BinaryMessage` message type constant. -/
def BinaryMessage : Int := 2

/-- Test definition (`Test` struct).  Durations are nanosecond counts. -/
structure Test where
  name : String := ""
  url : String := ""
  expectServerClose : Int := 0
  messageReadTimeout : Int := 0
  messageWriteTimeout : Int := 0
  expectMessages : Int := 0
  handshakeTimeout : Int := 0
  sendTextMessage : String := ""
  sleep : Int := 0
  maxDuration : Int := 0
  deriving Repr, DecidableEq

/-- Body of a received message: Go stores `string(data)` for non-binary frames
and the raw bytes for binary frames. -/
inductive Body where
  | text (s : String)
  | binary (s : String)
  deriving Repr, DecidableEq

/-- One received message (`WebsocketMessage`). `receivedAt` is the
`DurationMS` timestamp, kept as nanoseconds. -/
structure WebsocketMessage where
  receivedAt : Int := 0
  type : Int := 0
  body : Option Body := none
  deriving Repr, DecidableEq

/-- One log entry (`Log` struct).  `value` holds the message type recorded on
read success; `err` the attached error text, when any. -/
structure LogEvent where
  createdAt : Int := 0
  kind : String := ""
  step : String := ""
  msg : String := ""
  value : Option Int := none
  err : Option String := none
  deriving Repr, DecidableEq

/-- Test result (`TestResult` struct). -/
structure TestResult where
  id : String := ""
  test : Test := {}
  connectOK : Bool := false
  messagesReceived : Int := 0
  messages : List WebsocketMessage := []
  serverCloseCode : Int := 0
  closeOK : Bool := false
  log : List LogEvent := []
  deriving Repr, DecidableEq

/-- `writeMessageFaliures` map of wstest.go (name kept, typo included):
membership test with Go's false-on-missing map semantics. -/
def writeMessageFaliures (k : String) : Bool :=
  k = LogWriteMessageTimeout || k = LogWriteMessageNetError || k = LogWriteMessageError

/-- `readMessageFaliures` map of wstest.go. -/
def readMessageFaliures (k : String) : Bool :=
  k = LogReadMessageTimeout || k = LogReadMessageNetError || k = LogReadMessageError

/-- `TestResult.IsSuccess` (wstest.go lines 126-155), translated clause by
clause; the final `for` loop over the log is the `List.all` scan. -/
def TestResult.isSuccess (r : TestResult) : Bool :=
  let t := r.test
  if t.expectServerClose ≠ 0 ∧ r.serverCloseCode ≠ t.expectServerClose then false
  else if t.expectMessages ≠ 0 ∧ r.messagesReceived ≠ t.expectMessages then false
  else if t.maxDuration ≠ 0 then
    match r.log.getLast? with
    | none => false
    | some v =>
      if v.createdAt > t.maxDuration then false
      else r.log.all fun v =>
        !(writeMessageFaliures v.kind) && !(decide (v.step = StepReadMessage) && readMessageFaliures v.kind)
  else r.log.all fun v =>
    !(writeMessageFaliures v.kind) && !(decide (v.step = StepReadMessage) && readMessageFaliures v.kind)

/-- Outcome of one read attempt (`SetReadDeadline` then `ReadMessage`):
either the deadline call itself fails, or the read returns a
`*websocket.CloseError`, a `net.Error` (timeout or not), another error,
or a message. -/
inductive ReadOutcome where
  | deadlineFail (e : String)
  | closeErr (code : Int) (text : String)
  | netTimeout
  | netErr (e : String)
  | otherErr (e : String)
  | success (msgType : Int) (data : String)
  deriving Repr, DecidableEq

/-- Outcome of one write attempt (`SetWriteDeadline` then `WriteMessage`). -/
inductive WriteOutcome where
  | deadlineFail (e : String)
  | closeErr (code : Int) (text : String)
  | netTimeout
  | netErr (e : String)
  | otherErr (e : String)
  | success
  deriving Repr, DecidableEq

/-- I/O environment for one run: identifier generation, test serialization,
dial outcome, the stream of read outcomes, the (single) text-write outcome,
the close-frame write outcome, and the wall clock sampled at successive
`timestamp()` calls (values are `DurationMS` nanosecond counts). -/
structure Env where
  uuidOk : Bool := true
  uuid : String := ""
  marshalOk : Bool := true
  dialErr : Option String := none
  writeOut : WriteOutcome := WriteOutcome.success
  readAt : Nat → ReadOutcome := fun _ => ReadOutcome.netTimeout
  closeWriteErr : Option String := none
  clock : Nat → Int := fun _ => 0

/-- Engine state: the result under construction plus the clock-sample counter
and the index into the read-outcome stream. -/
structure EngineSt where
  wr : TestResult
  tick : Nat := 0
  readIdx : Nat := 0
  deriving Repr

/-- The `addLog` closure of `testWS` (lines 195-213): fills kind and step,
stamps `createdAt` from the clock when the supplied entry has none, and
appends to the log. -/
def addLog (env : Env) (st : EngineSt) (kind step : String) (l : LogEvent) : EngineSt :=
  let stamped :=
    if l.createdAt = 0 then
      ({ l with kind := kind, step := step, createdAt := env.clock st.tick }, st.tick + 1)
    else
      ({ l with kind := kind, step := step }, st.tick)
  { st with
    wr := { st.wr with log := st.wr.log ++ [stamped.1] }
    tick := stamped.2 }

/-- The `handleWrite` closure (lines 233-266).  Returns the new state and
whether a non-nil error was returned to the caller. -/
def handleWrite (env : Env) (st : EngineSt) (ignoreTimeout : Bool) (step : String) :
    EngineSt × Bool :=
  let st := addLog env st LogWriteMessage step {}
  match env.writeOut with
  | WriteOutcome.deadlineFail e =>
    (addLog env st LogSetWriteDeadlineFailed step { err := some e }, true)
  | WriteOutcome.closeErr code text =>
    let st := addLog env st LogServerClosedConnection step { err := some (text) }
    ({ st with wr := { st.wr with serverCloseCode := code } }, true)
  | WriteOutcome.netTimeout =>
    let st := addLog env st LogWriteMessageTimeout step {}
    if ignoreTimeout then (st, false) else (st, true)
  | WriteOutcome.netErr e =>
    (addLog env st LogWriteMessageNetError step { err := some e }, true)
  | WriteOutcome.otherErr e =>
    (addLog env st LogWriteMessageError step { err := some e }, true)
  | WriteOutcome.success =>
    (addLog env st LogWriteMessageSuccess StepSendText {}, false)

/-- The `handleRead` closure (lines 268-317).  Consumes the next read outcome
from the environment; returns the new state and whether a non-nil error was
returned to the caller. -/
def handleRead (env : Env) (st : EngineSt) (ignoreTimeout : Bool) (step : String) :
    EngineSt × Bool :=
  let outcome := env.readAt st.readIdx
  let st := { st with readIdx := st.readIdx + 1 }
  match outcome with
  | ReadOutcome.deadlineFail e =>
    (addLog env st LogSetReadDeadlineFailed step { err := some e }, true)
  | ReadOutcome.closeErr code text =>
    let st := addLog env st LogReadMessage step {}
    let st := addLog env st LogServerClosedConnection step { err := some text }
    ({ st with wr := { st.wr with serverCloseCode := code } }, true)
  | ReadOutcome.netTimeout =>
    let st := addLog env st LogReadMessage step {}
    let st := addLog env st LogReadMessageTimeout step {}
    if ignoreTimeout then (st, false) else (st, true)
  | ReadOutcome.netErr e =>
    let st := addLog env st LogReadMessage step {}
    (addLog env st LogReadMessageNetError step { err := some e }, true)
  | ReadOutcome.otherErr e =>
    let st := addLog env st LogReadMessage step {}
    (addLog env st LogReadMessageError step { err := some e }, true)
  | ReadOutcome.success msgType data =>
    let st := addLog env st LogReadMessage step {}
    let st := addLog env st LogReadMessageSuccess step { value := some msgType }
    let body := if msgType = BinaryMessage then Body.binary data else Body.text data
    let msg : WebsocketMessage :=
      { type := msgType, body := some body, receivedAt := env.clock st.tick }
    let st := { st with tick := st.tick + 1 }
    let st := { st with wr := { st.wr with
      messages := st.wr.messages ++ [msg]
      messagesReceived := st.wr.messagesReceived + 1 } }
    (st, false)

/-- The read loop `for wr.MessagesReceived < wt.ExpectMessages` (lines
325-329); each successful read raises `messagesReceived` by one, so
`(expectMessages - messagesReceived).toNat` fuel is exactly enough. -/
def readLoop (env : Env) (wt : Test) : Nat → EngineSt → EngineSt × Bool
  | 0, st => (st, false)
  | fuel + 1, st =>
    if st.wr.messagesReceived < wt.expectMessages then
      let r := handleRead env st false StepReadMessage
      if r.2 then (r.1, true) else readLoop env wt fuel r.1
    else (st, false)

/-- Client-close phase (lines 341-357): log the close request, write the
close frame, and on success set `closeOK`. -/
def clientClose (env : Env) (st : EngineSt) : EngineSt :=
  let st := addLog env st LogClientCloseConnection StepClientClose {}
  match env.closeWriteErr with
  | some e => addLog env st LogClientCloseConnectionFailed StepClientClose { err := some e }
  | none =>
    let st := addLog env st LogClientCloseConnectionSuccess StepClientClose {}
    { st with wr := { st.wr with closeOK := true } }

/-- Close-check phase (lines 331-339): one more read, with step and
`ignoreTimeout` chosen from `expectServerClose`; a non-nil error ends the
run, otherwise the client-close phase follows. -/
def closeCheck (env : Env) (wt : Test) (st : EngineSt) : EngineSt :=
  if wt.expectServerClose ≠ 0 then
    let r := handleRead env st false StepExpectedServerClose
    if r.2 then r.1 else clientClose env r.1
  else
    let r := handleRead env st true StepUnexpectedServerClose
    if r.2 then r.1 else clientClose env r.1

/-- Read loop followed by close check (lines 325-339). -/
def afterSend (env : Env) (wt : Test) (st : EngineSt) : EngineSt :=
  let r := readLoop env wt (wt.expectMessages - st.wr.messagesReceived).toNat st
  if r.2 then r.1 else closeCheck env wt r.1

/-- Everything after a successful connect (lines 319-357): optional text
send, read loop, close check, client close; any non-nil error from a step
ends the run with the partial result. -/
def afterConnect (env : Env) (wt : Test) (st : EngineSt) : EngineSt :=
  if wt.sendTextMessage ≠ "" then
    let r := handleWrite env st false StepSendText
    if r.2 then r.1 else afterSend env wt r.1
  else afterSend env wt st

/-- Default filling of unset timeouts (lines 169-177); durations in ns. -/
def applyDefaults (wt : Test) : Test :=
  let wt := if wt.messageReadTimeout = 0 then { wt with messageReadTimeout := 1000000000 } else wt
  let wt := if wt.messageWriteTimeout = 0 then { wt with messageWriteTimeout := 1000000000 } else wt
  if wt.handshakeTimeout = 0 then { wt with handshakeTimeout := 30000000000 } else wt

/-- The run body once the input guards have passed (lines 185-357): dial,
then `afterConnect`; a failed dial is logged and reported as a normal
result. -/
def runConnectedTest (env : Env) (wt : Test) : TestResult :=
  let st0 : EngineSt := { wr := { id := env.uuid, test := wt } }
  let st1 := addLog env st0 LogConnect StepConnect {}
  match env.dialErr with
  | some e => (addLog env st1 LogConnectFail StepConnect { err := some e }).wr
  | none =>
    let st2 := addLog env st1 LogConnectSuccess StepConnect {}
    let st2 := { st2 with wr := { st2.wr with connectOK := true } }
    (afterConnect env wt st2).wr

/-- `testWS` (lines 157-359): input guards (empty name, identifier
generation, test serialization) raise errors; every later exit returns the
result with a nil error. -/
def testWS (env : Env) (wt : Test) : TestResult × Option String :=
  if wt.name = "" then ({}, some "test name cannot be empty")
  else if env.uuidOk = false then ({}, some "uuid generation failed")
  else
    let wt := applyDefaults wt
    if env.marshalOk = false then ({}, some "json marshal failed")
    else (runConnectedTest env wt, none)


/-- The classification table of the claim: the event kinds one read attempt
appends, per outcome (the `read_message` marker event, then the classified
kind). -/
def readClassifiedKinds : ReadOutcome -> List String
  | ReadOutcome.deadlineFail _ => [LogSetReadDeadlineFailed]
  | ReadOutcome.closeErr _ _ => [LogReadMessage, LogServerClosedConnection]
  | ReadOutcome.netTimeout => [LogReadMessage, LogReadMessageTimeout]
  | ReadOutcome.netErr _ => [LogReadMessage, LogReadMessageNetError]
  | ReadOutcome.otherErr _ => [LogReadMessage, LogReadMessageError]
  | ReadOutcome.success _ _ => [LogReadMessage, LogReadMessageSuccess]

/-- The close-code rule of the claim: the code a read attempt leaves in
`server_close_code`, per outcome. -/
def readRecordedCode (o : ReadOutcome) (old : Int) : Int :=
  match o with
  | ReadOutcome.closeErr code _ => code
  | _ => old

/-- The close-code rule for a write attempt, per outcome. -/
def writeRecordedCode (o : WriteOutcome) (old : Int) : Int :=
  match o with
  | WriteOutcome.closeErr code _ => code
  | _ => old

/-- Projection of a log entry to its (kind, step) pair. -/
def kindStep (v : LogEvent) : String × String := (v.kind, v.step)

/-- The (kind, step) pairs one read attempt appends: every event of the
attempt carries the step tag the caller passed. -/
def readPairs (step : String) (o : ReadOutcome) : List (String × String) :=
  (readClassifiedKinds o).map fun k => (k, step)

/-- The (kind, step) pairs one write attempt appends.  The `write_message`
marker is logged before the deadline is set, and the success event is logged
with the `StepSendText` constant rather than the step parameter, as in the
source. -/
def writePairs (step : String) : WriteOutcome → List (String × String)
  | WriteOutcome.deadlineFail _ => [(LogWriteMessage, step), (LogSetWriteDeadlineFailed, step)]
  | WriteOutcome.closeErr _ _ => [(LogWriteMessage, step), (LogServerClosedConnection, step)]
  | WriteOutcome.netTimeout => [(LogWriteMessage, step), (LogWriteMessageTimeout, step)]
  | WriteOutcome.netErr _ => [(LogWriteMessage, step), (LogWriteMessageNetError, step)]
  | WriteOutcome.otherErr _ => [(LogWriteMessage, step), (LogWriteMessageError, step)]
  | WriteOutcome.success => [(LogWriteMessage, step), (LogWriteMessageSuccess, StepSendText)]

/-- The (kind, step) pairs the client-close phase appends. -/
def clientClosePairs (env : Env) : List (String × String) :=
  match env.closeWriteErr with
  | some _ => [(LogClientCloseConnection, StepClientClose), (LogClientCloseConnectionFailed, StepClientClose)]
  | none => [(LogClientCloseConnection, StepClientClose), (LogClientCloseConnectionSuccess, StepClientClose)]

/-- Whether one read attempt returns a non-nil error to the caller: a timeout
is swallowed when `ignoreTimeout` is set, a successful read returns nil,
everything else is an error. -/
def readErrFlag (iT : Bool) : ReadOutcome → Bool
  | ReadOutcome.netTimeout => !iT
  | ReadOutcome.success _ _ => false
  | _ => true

/-- Whether one write attempt returns a non-nil error to the caller. -/
def writeErrFlag (iT : Bool) : WriteOutcome → Bool
  | WriteOutcome.netTimeout => !iT
  | WriteOutcome.success => false
  | _ => true

/-- How much one read attempt adds to `messages_received`: one for a
successful read, nothing otherwise. -/
def msgDelta : ReadOutcome → Int
  | ReadOutcome.success _ _ => 1
  | _ => 0

/-- The six step-tag constants of the source, as a predicate on a step. -/
def stepOK (s : String) : Prop :=
  s = StepConnect ∨ s = StepSendText ∨ s = StepReadMessage ∨
    s = StepClientClose ∨ s = StepExpectedServerClose ∨ s = StepUnexpectedServerClose

/-- The engine state right after a successful connect: `connect` and
`connect_success` logged, `connect_ok` set. -/
def connectedSt (env : Env) (wt : Test) : EngineSt :=
  { wr := { id := env.uuid, test := wt, connectOK := true
            log := [{ createdAt := env.clock 0, kind := LogConnect, step := StepConnect },
                    { createdAt := env.clock 1, kind := LogConnectSuccess, step := StepConnect }] }
    tick := 2, readIdx := 0 }

/-- All (kind, step) pairs of the log so far carry one of the six step-tag
constants. -/
def logStepsOK (st : EngineSt) : Prop :=
  ∀ p ∈ st.wr.log.map kindStep, stepOK p.2

/-- A strictly positive sample clock for concrete runs. -/
def sampleClock : Nat → Int := fun n => ((n : Int) + 1) * 1000000

/-- Concrete test for the C3 counterexample and witness runs. -/
def tC3x : Test := { name := "t3", url := "ws://h" }

/-- Concrete environment for the C3 counterexample run: the close-check
read-deadline set fails, so no read is performed. -/
def envC3x : Env :=
  { uuid := "id3", clock := sampleClock
    readAt := fun _ => ReadOutcome.deadlineFail "deadline set failed" }

/-- Concrete test for the C3 witness run. -/
def tC3w : Test := { name := "t3w", url := "ws://h" }

/-- Concrete environment for the C3 witness run: the close-check read times
out. -/
def envC3w : Env := { uuid := "id3w", clock := sampleClock }

/-- Concrete test for the C4 witness run: no peer close expected. -/
def tC4w : Test := { name := "t4", url := "ws://h" }

/-- Concrete environment for the C4 witness run. -/
def envC4w : Env := { uuid := "id4", clock := sampleClock }

/-- Concrete engine state for the C4 witness. -/
def stC4w : EngineSt := connectedSt envC4w tC4w

/-- Concrete test for the C6 witness run. -/
def tC6w : Test := { name := "t6", url := "ws://h" }

/-- Concrete environment for the C6 witness run. -/
def envC6w : Env := { uuid := "id6", clock := sampleClock }

/-- Concrete test for the C5 counterexample run. -/
def tC5x : Test := { name := "t5", url := "ws://h" }

/-- Concrete environment for the C5 counterexample run: setting the read
deadline fails at the very first read attempt. -/
def envC5x : Env :=
  { uuid := "id5", clock := sampleClock
    readAt := fun _ => ReadOutcome.deadlineFail "deadline set failed" }

/-- Concrete test for the C7 witness run. -/
def tC7w : Test := { name := "t7", url := "ws://h" }

/-- Concrete environment for the C7 witness run: the dial fails. -/
def envC7w : Env :=
  { uuid := "id7", clock := sampleClock, dialErr := some "connection refused" }

/-- Concrete test with an empty name for the C5 witness. -/
def tC5w : Test := { url := "ws://h" }

/-- Concrete environment for the C5 witness. -/
def envC5w : Env := { uuid := "id5w", clock := sampleClock }

/-- Concrete test for the C10 witness run. -/
def tC10w : Test := { name := "t10", url := "ws://h" }

/-- Concrete environment for the C10 witness run: everything succeeds and the
final read times out benignly. -/
def envC10w : Env := { uuid := "id10", clock := sampleClock }

/-- `addLog` appends one entry carrying exactly the given kind and step. -/
theorem addLog_pairs (env : Env) (st : EngineSt) (k s : String) (l : LogEvent) :
    (addLog env st k s l).wr.log.map kindStep = st.wr.log.map kindStep ++ [(k, s)] := by
  unfold addLog
  dsimp only
  split_ifs <;> simp [kindStep]

theorem addLog_messagesReceived (env : Env) (st : EngineSt) (k s : String) (l : LogEvent) :
    (addLog env st k s l).wr.messagesReceived = st.wr.messagesReceived := rfl

theorem addLog_messages (env : Env) (st : EngineSt) (k s : String) (l : LogEvent) :
    (addLog env st k s l).wr.messages = st.wr.messages := rfl

theorem addLog_serverCloseCode (env : Env) (st : EngineSt) (k s : String) (l : LogEvent) :
    (addLog env st k s l).wr.serverCloseCode = st.wr.serverCloseCode := rfl

theorem addLog_closeOK (env : Env) (st : EngineSt) (k s : String) (l : LogEvent) :
    (addLog env st k s l).wr.closeOK = st.wr.closeOK := rfl

theorem addLog_connectOK (env : Env) (st : EngineSt) (k s : String) (l : LogEvent) :
    (addLog env st k s l).wr.connectOK = st.wr.connectOK := rfl

theorem addLog_readIdx (env : Env) (st : EngineSt) (k s : String) (l : LogEvent) :
    (addLog env st k s l).readIdx = st.readIdx := rfl

/-- One read attempt appends exactly its classified (kind, step) pairs. -/
theorem handleRead_pairs (env : Env) (st : EngineSt) (iT : Bool) (step : String) :
    (handleRead env st iT step).1.wr.log.map kindStep =
      st.wr.log.map kindStep ++ readPairs step (env.readAt st.readIdx) := by
  rcases h : env.readAt st.readIdx with e | ⟨code, text⟩ | _ | e | e | ⟨t, d⟩ <;>
    cases iT <;>
    simp [handleRead, h, addLog_pairs, readPairs, readClassifiedKinds]

theorem handleRead_code (env : Env) (st : EngineSt) (iT : Bool) (step : String) :
    (handleRead env st iT step).1.wr.serverCloseCode =
      readRecordedCode (env.readAt st.readIdx) st.wr.serverCloseCode := by
  rcases h : env.readAt st.readIdx with e | ⟨code, text⟩ | _ | e | e | ⟨t, d⟩ <;>
    cases iT <;>
    simp [handleRead, h, addLog_serverCloseCode, readRecordedCode]

theorem handleRead_snd (env : Env) (st : EngineSt) (iT : Bool) (step : String) :
    (handleRead env st iT step).2 = readErrFlag iT (env.readAt st.readIdx) := by
  rcases h : env.readAt st.readIdx with e | ⟨code, text⟩ | _ | e | e | ⟨t, d⟩ <;>
    cases iT <;>
    simp [handleRead, h, readErrFlag]

theorem handleRead_closeOK (env : Env) (st : EngineSt) (iT : Bool) (step : String) :
    (handleRead env st iT step).1.wr.closeOK = st.wr.closeOK := by
  rcases h : env.readAt st.readIdx with e | ⟨code, text⟩ | _ | e | e | ⟨t, d⟩ <;>
    cases iT <;>
    simp [handleRead, h, addLog_closeOK]

theorem handleRead_connectOK (env : Env) (st : EngineSt) (iT : Bool) (step : String) :
    (handleRead env st iT step).1.wr.connectOK = st.wr.connectOK := by
  rcases h : env.readAt st.readIdx with e | ⟨code, text⟩ | _ | e | e | ⟨t, d⟩ <;>
    cases iT <;>
    simp [handleRead, h, addLog_connectOK]

theorem handleRead_count (env : Env) (st : EngineSt) (iT : Bool) (step : String) :
    (handleRead env st iT step).1.wr.messagesReceived =
      st.wr.messagesReceived + msgDelta (env.readAt st.readIdx) := by
  rcases h : env.readAt st.readIdx with e | ⟨code, text⟩ | _ | e | e | ⟨t, d⟩ <;>
    cases iT <;>
    simp [handleRead, h, addLog_messagesReceived, msgDelta]

theorem handleRead_len (env : Env) (st : EngineSt) (iT : Bool) (step : String) :
    ((handleRead env st iT step).1.wr.messages.length : Int) =
      st.wr.messages.length + msgDelta (env.readAt st.readIdx) := by
  rcases h : env.readAt st.readIdx with e | ⟨code, text⟩ | _ | e | e | ⟨t, d⟩ <;>
    cases iT <;>
    simp [handleRead, h, addLog_messages, msgDelta]

theorem handleRead_code_ok (env : Env) (st : EngineSt) (iT : Bool) (step : String)
    (h : (handleRead env st iT step).2 = false) :
    (handleRead env st iT step).1.wr.serverCloseCode = st.wr.serverCloseCode := by
  rw [handleRead_snd] at h
  rw [handleRead_code]
  rcases ho : env.readAt st.readIdx with e | ⟨code, text⟩ | _ | e | e | ⟨t, d⟩ <;>
    rw [ho] at h <;> simp [readErrFlag] at h <;> simp [readRecordedCode]

theorem handleRead_readIdx (env : Env) (st : EngineSt) (iT : Bool) (step : String) :
    (handleRead env st iT step).1.readIdx = st.readIdx + 1 := by
  rcases h : env.readAt st.readIdx with e | ⟨code, text⟩ | _ | e | e | ⟨t, d⟩ <;>
    cases iT <;>
    simp [handleRead, h, addLog, addLog_readIdx]

/-- One write attempt appends exactly its classified (kind, step) pairs. -/
theorem handleWrite_pairs (env : Env) (st : EngineSt) (iT : Bool) (step : String) :
    (handleWrite env st iT step).1.wr.log.map kindStep =
      st.wr.log.map kindStep ++ writePairs step env.writeOut := by
  rcases h : env.writeOut with e | ⟨code, text⟩ | _ | e | e <;>
    cases iT <;>
    simp [handleWrite, h, addLog_pairs, writePairs]

theorem handleWrite_code (env : Env) (st : EngineSt) (iT : Bool) (step : String) :
    (handleWrite env st iT step).1.wr.serverCloseCode =
      writeRecordedCode env.writeOut st.wr.serverCloseCode := by
  rcases h : env.writeOut with e | ⟨code, text⟩ | _ | e | e <;>
    cases iT <;>
    simp [handleWrite, h, addLog_serverCloseCode, writeRecordedCode]

theorem handleWrite_snd (env : Env) (st : EngineSt) (iT : Bool) (step : String) :
    (handleWrite env st iT step).2 = writeErrFlag iT env.writeOut := by
  rcases h : env.writeOut with e | ⟨code, text⟩ | _ | e | e <;>
    cases iT <;>
    simp [handleWrite, h, writeErrFlag]

theorem handleWrite_closeOK (env : Env) (st : EngineSt) (iT : Bool) (step : String) :
    (handleWrite env st iT step).1.wr.closeOK = st.wr.closeOK := by
  rcases h : env.writeOut with e | ⟨code, text⟩ | _ | e | e <;>
    cases iT <;>
    simp [handleWrite, h, addLog_closeOK]

theorem handleWrite_connectOK (env : Env) (st : EngineSt) (iT : Bool) (step : String) :
    (handleWrite env st iT step).1.wr.connectOK = st.wr.connectOK := by
  rcases h : env.writeOut with e | ⟨code, text⟩ | _ | e | e <;>
    cases iT <;>
    simp [handleWrite, h, addLog_connectOK]

theorem handleWrite_count (env : Env) (st : EngineSt) (iT : Bool) (step : String) :
    (handleWrite env st iT step).1.wr.messagesReceived = st.wr.messagesReceived := by
  rcases h : env.writeOut with e | ⟨code, text⟩ | _ | e | e <;>
    cases iT <;>
    simp [handleWrite, h, addLog_messagesReceived]

theorem handleWrite_messages (env : Env) (st : EngineSt) (iT : Bool) (step : String) :
    (handleWrite env st iT step).1.wr.messages = st.wr.messages := by
  rcases h : env.writeOut with e | ⟨code, text⟩ | _ | e | e <;>
    cases iT <;>
    simp [handleWrite, h, addLog_messages]

theorem handleWrite_code_ok (env : Env) (st : EngineSt) (iT : Bool) (step : String)
    (h : (handleWrite env st iT step).2 = false) :
    (handleWrite env st iT step).1.wr.serverCloseCode = st.wr.serverCloseCode := by
  rw [handleWrite_snd] at h
  rw [handleWrite_code]
  rcases ho : env.writeOut with e | ⟨code, text⟩ | _ | e | e <;>
    rw [ho] at h <;> simp [writeErrFlag] at h <;> simp [writeRecordedCode]

theorem handleWrite_readIdx (env : Env) (st : EngineSt) (iT : Bool) (step : String) :
    (handleWrite env st iT step).1.readIdx = st.readIdx := by
  rcases h : env.writeOut with e | ⟨code, text⟩ | _ | e | e <;>
    cases iT <;>
    simp [handleWrite, h, addLog_readIdx]

/-- The client-close phase appends exactly its two (kind, step) pairs. -/
theorem clientClose_pairs (env : Env) (st : EngineSt) :
    (clientClose env st).wr.log.map kindStep =
      st.wr.log.map kindStep ++ clientClosePairs env := by
  rcases h : env.closeWriteErr with _ | e <;>
    simp [clientClose, h, addLog_pairs, clientClosePairs]

theorem clientClose_code (env : Env) (st : EngineSt) :
    (clientClose env st).wr.serverCloseCode = st.wr.serverCloseCode := by
  rcases h : env.closeWriteErr with _ | e <;>
    simp [clientClose, h, addLog_serverCloseCode]

theorem clientClose_count (env : Env) (st : EngineSt) :
    (clientClose env st).wr.messagesReceived = st.wr.messagesReceived := by
  rcases h : env.closeWriteErr with _ | e <;>
    simp [clientClose, h, addLog_messagesReceived]

theorem clientClose_messages (env : Env) (st : EngineSt) :
    (clientClose env st).wr.messages = st.wr.messages := by
  rcases h : env.closeWriteErr with _ | e <;>
    simp [clientClose, h, addLog_messages]

theorem clientClose_connectOK (env : Env) (st : EngineSt) :
    (clientClose env st).wr.connectOK = st.wr.connectOK := by
  rcases h : env.closeWriteErr with _ | e <;>
    simp [clientClose, h, addLog_connectOK]

theorem clientClose_closeOK_none (env : Env) (st : EngineSt) (h : env.closeWriteErr = none) :
    (clientClose env st).wr.closeOK = true := by
  simp [clientClose, h]

theorem clientClose_closeOK_some (env : Env) (st : EngineSt) (e : String)
    (h : env.closeWriteErr = some e) :
    (clientClose env st).wr.closeOK = st.wr.closeOK := by
  simp [clientClose, h, addLog_closeOK]

/-- The read loop leaves `closeOK` untouched. -/
theorem readLoop_closeOK (env : Env) (wt : Test) (fuel : Nat) (st : EngineSt) :
    (readLoop env wt fuel st).1.wr.closeOK = st.wr.closeOK := by
  induction fuel generalizing st with
  | zero => rfl
  | succ n ih =>
    unfold readLoop
    dsimp only
    split_ifs with hc hb
    · exact handleRead_closeOK env st false StepReadMessage
    · rw [ih, handleRead_closeOK]
    · rfl

theorem readLoop_connectOK (env : Env) (wt : Test) (fuel : Nat) (st : EngineSt) :
    (readLoop env wt fuel st).1.wr.connectOK = st.wr.connectOK := by
  induction fuel generalizing st with
  | zero => rfl
  | succ n ih =>
    unfold readLoop
    dsimp only
    split_ifs with hc hb
    · exact handleRead_connectOK env st false StepReadMessage
    · rw [ih, handleRead_connectOK]
    · rfl

/-- The read loop keeps `messages_received` equal to the message count. -/
theorem readLoop_inv (env : Env) (wt : Test) (fuel : Nat) (st : EngineSt)
    (h : st.wr.messagesReceived = (st.wr.messages.length : Int)) :
    (readLoop env wt fuel st).1.wr.messagesReceived =
      ((readLoop env wt fuel st).1.wr.messages.length : Int) := by
  induction fuel generalizing st with
  | zero => exact h
  | succ n ih =>
    unfold readLoop
    dsimp only
    split_ifs with hc hb
    · rw [handleRead_count, handleRead_len, h]
    · apply ih
      rw [handleRead_count, handleRead_len, h]
    · exact h

/-- A read loop that returns nil leaves `server_close_code` untouched. -/
theorem readLoop_code_ok (env : Env) (wt : Test) (fuel : Nat) (st : EngineSt)
    (h : (readLoop env wt fuel st).2 = false) :
    (readLoop env wt fuel st).1.wr.serverCloseCode = st.wr.serverCloseCode := by
  induction fuel generalizing st with
  | zero => rfl
  | succ n ih =>
    unfold readLoop at h ⊢
    dsimp only at h ⊢
    by_cases hc : st.wr.messagesReceived < wt.expectMessages
    · rw [if_pos hc] at h ⊢
      by_cases hb : (handleRead env st false StepReadMessage).2 = true
      · rw [if_pos hb] at h
        simp at h
      · rw [if_neg hb] at h ⊢
        rw [ih _ h, handleRead_code_ok _ _ _ _ (by simpa using hb)]
    · rw [if_neg hc] at h ⊢

theorem closeCheck_inv (env : Env) (wt : Test) (st : EngineSt)
    (h : st.wr.messagesReceived = (st.wr.messages.length : Int)) :
    (closeCheck env wt st).wr.messagesReceived =
      ((closeCheck env wt st).wr.messages.length : Int) := by
  unfold closeCheck
  split_ifs with he
  · by_cases hb : (handleRead env st false StepExpectedServerClose).2 = true
    · rw [if_pos hb, handleRead_count, handleRead_len, h]
    · rw [if_neg hb, clientClose_count, clientClose_messages, handleRead_count,
        handleRead_len, h]
  · by_cases hb : (handleRead env st true StepUnexpectedServerClose).2 = true
    · rw [if_pos hb, handleRead_count, handleRead_len, h]
    · rw [if_neg hb, clientClose_count, clientClose_messages, handleRead_count,
        handleRead_len, h]

theorem closeCheck_closeOK_code (env : Env) (wt : Test) (st : EngineSt)
    (h0 : st.wr.closeOK = false)
    (h : (closeCheck env wt st).wr.closeOK = true) :
    (closeCheck env wt st).wr.serverCloseCode = st.wr.serverCloseCode := by
  unfold closeCheck at h ⊢
  split_ifs at h ⊢ with he
  · by_cases hb : (handleRead env st false StepExpectedServerClose).2 = true
    · rw [if_pos hb] at h
      rw [handleRead_closeOK] at h
      rw [h0] at h
      cases h
    · rw [if_neg hb]
      rw [clientClose_code, handleRead_code_ok _ _ _ _ (by simpa using hb)]
  · by_cases hb : (handleRead env st true StepUnexpectedServerClose).2 = true
    · rw [if_pos hb] at h
      rw [handleRead_closeOK] at h
      rw [h0] at h
      cases h
    · rw [if_neg hb]
      rw [clientClose_code, handleRead_code_ok _ _ _ _ (by simpa using hb)]

theorem afterSend_inv (env : Env) (wt : Test) (st : EngineSt)
    (h : st.wr.messagesReceived = (st.wr.messages.length : Int)) :
    (afterSend env wt st).wr.messagesReceived =
      ((afterSend env wt st).wr.messages.length : Int) := by
  unfold afterSend
  dsimp only
  by_cases hb : (readLoop env wt (wt.expectMessages - st.wr.messagesReceived).toNat st).2 = true
  · rw [if_pos hb]
    exact readLoop_inv env wt _ st h
  · rw [if_neg hb]
    exact closeCheck_inv env wt _ (readLoop_inv env wt _ st h)

theorem afterSend_closeOK_code (env : Env) (wt : Test) (st : EngineSt)
    (h0 : st.wr.closeOK = false)
    (h : (afterSend env wt st).wr.closeOK = true) :
    (afterSend env wt st).wr.serverCloseCode = st.wr.serverCloseCode := by
  unfold afterSend at h ⊢
  dsimp only at h ⊢
  by_cases hb : (readLoop env wt (wt.expectMessages - st.wr.messagesReceived).toNat st).2 = true
  · rw [if_pos hb] at h
    rw [readLoop_closeOK, h0] at h
    cases h
  · rw [if_neg hb] at h ⊢
    have h1 := closeCheck_closeOK_code env wt _ (by rw [readLoop_closeOK]; exact h0) h
    rw [h1, readLoop_code_ok _ _ _ _ (by simpa using hb)]

theorem afterConnect_inv (env : Env) (wt : Test) (st : EngineSt)
    (h : st.wr.messagesReceived = (st.wr.messages.length : Int)) :
    (afterConnect env wt st).wr.messagesReceived =
      ((afterConnect env wt st).wr.messages.length : Int) := by
  unfold afterConnect
  split_ifs with hs
  · by_cases hb : (handleWrite env st false StepSendText).2 = true
    · rw [if_pos hb, handleWrite_count, handleWrite_messages, h]
    · rw [if_neg hb]
      apply afterSend_inv
      rw [handleWrite_count, handleWrite_messages, h]
  · exact afterSend_inv env wt st h

theorem afterConnect_closeOK_code (env : Env) (wt : Test) (st : EngineSt)
    (h0 : st.wr.closeOK = false)
    (h : (afterConnect env wt st).wr.closeOK = true) :
    (afterConnect env wt st).wr.serverCloseCode = st.wr.serverCloseCode := by
  unfold afterConnect at h ⊢
  split_ifs at h ⊢ with hs
  · by_cases hb : (handleWrite env st false StepSendText).2 = true
    · rw [if_pos hb] at h
      rw [handleWrite_closeOK, h0] at h
      cases h
    · rw [if_neg hb] at h ⊢
      have h1 := afterSend_closeOK_code env wt _ (by rw [handleWrite_closeOK]; exact h0) h
      rw [h1, handleWrite_code_ok _ _ _ _ (by simpa using hb)]
  · exact afterSend_closeOK_code env wt st h0 h

/-- Claim C1: `IsSuccess` returns true iff the expected-close, expected-count,
max-duration and log-scan conditions all hold, any single failing condition
yielding false. -/
theorem claim_C1 (r : TestResult) :
    r.isSuccess = true ↔
      ((r.test.expectServerClose = 0 ∨ r.serverCloseCode = r.test.expectServerClose) ∧
       (r.test.expectMessages = 0 ∨ r.messagesReceived = r.test.expectMessages) ∧
       (r.test.maxDuration = 0 ∨
         (r.log ≠ [] ∧ ∀ v, r.log.getLast? = some v → v.createdAt ≤ r.test.maxDuration)) ∧
       (∀ v ∈ r.log, writeMessageFaliures v.kind = false) ∧
       (∀ v ∈ r.log, ¬(readMessageFaliures v.kind = true ∧ v.step = StepReadMessage))) := by
  unfold TestResult.isSuccess
  dsimp only
  split_ifs with h1 h2 h3
  · refine iff_of_false (by decide) ?_
    rintro ⟨a, b, c, d, e⟩
    rcases a with a | a
    · exact h1.1 a
    · exact h1.2 a
  · refine iff_of_false (by decide) ?_
    rintro ⟨a, b, c, d, e⟩
    rcases b with b | b
    · exact h2.1 b
    · exact h2.2 b
  · push_neg at h1 h2
    rcases hL : r.log.getLast? with _ | v
    · dsimp only
      refine iff_of_false (by decide) ?_
      rintro ⟨a, b, c, d, e⟩
      rcases c with c | ⟨hne, _⟩
      · exact h3 c
      · exact hne (List.getLast?_eq_none_iff.mp hL)
    · dsimp only
      split_ifs with h4
      · refine iff_of_false (by decide) ?_
        rintro ⟨a, b, c, d, e⟩
        rcases c with c | ⟨hne, hlast⟩
        · exact h3 c
        · exact absurd (hlast v rfl) (by omega)
      · simp only [List.all_eq_true, Bool.and_eq_true, Bool.not_eq_true',
          Bool.and_eq_false_iff, decide_eq_false_iff_not]
        constructor
        · intro h
          refine ⟨?_, ?_, Or.inr ⟨?_, ?_⟩, ?_, ?_⟩
          · by_cases hz : r.test.expectServerClose = 0
            · exact Or.inl hz
            · exact Or.inr (h1 hz)
          · by_cases hz : r.test.expectMessages = 0
            · exact Or.inl hz
            · exact Or.inr (h2 hz)
          · intro hnil
            rw [List.getLast?_eq_none_iff.mpr hnil] at hL
            cases hL
          · intro w hw
            cases hw
            omega
          · intro v hv
            exact (h v hv).1
          · rintro v hv ⟨hk, hs⟩
            rcases (h v hv).2 with h' | h'
            · exact h' hs
            · rw [hk] at h'
              cases h'
        · rintro ⟨a, b, c, d, e⟩ v hv
          refine ⟨d v hv, ?_⟩
          by_cases hs : v.step = StepReadMessage
          · right
            cases hk : readMessageFaliures v.kind
            · rfl
            · exact absurd ⟨hk, hs⟩ (e v hv)
          · exact Or.inl hs
  · push_neg at h1 h2 h3
    simp only [List.all_eq_true, Bool.and_eq_true, Bool.not_eq_true',
      Bool.and_eq_false_iff, decide_eq_false_iff_not]
    constructor
    · intro h
      refine ⟨?_, ?_, Or.inl h3, ?_, ?_⟩
      · by_cases hz : r.test.expectServerClose = 0
        · exact Or.inl hz
        · exact Or.inr (h1 hz)
      · by_cases hz : r.test.expectMessages = 0
        · exact Or.inl hz
        · exact Or.inr (h2 hz)
      · intro v hv
        exact (h v hv).1
      · rintro v hv ⟨hk, hs⟩
        rcases (h v hv).2 with h' | h'
        · exact h' hs
        · rw [hk] at h'
          cases h'
    · rintro ⟨a, b, c, d, e⟩ v hv
      refine ⟨d v hv, ?_⟩
      by_cases hs : v.step = StepReadMessage
      · right
        cases hk : readMessageFaliures v.kind
        · rfl
        · exact absurd ⟨hk, hs⟩ (e v hv)
      · exact Or.inl hs

/-- Claim C2: every read attempt is classified uniformly: a peer close frame
yields `server_closed_connection` and records its code; a transport timeout
yields `read_message_timeout`; another net error `read_message_net_error`;
any other error `read_message_error`; no error `read_message_success`; and
`server_close_code` is written exactly in the peer-close case. -/
theorem claim_C2 (env : Env) (st : EngineSt) (iT : Bool) (step : String) :
    (handleRead env st iT step).1.wr.log.map LogEvent.kind =
      st.wr.log.map LogEvent.kind ++ readClassifiedKinds (env.readAt st.readIdx) ∧
    (handleRead env st iT step).1.wr.serverCloseCode =
      readRecordedCode (env.readAt st.readIdx) st.wr.serverCloseCode := by
  rcases h : env.readAt st.readIdx with e | ⟨code, text⟩ | _ | e | e | ⟨t, d⟩
  · simp only [handleRead, h]
    simp [addLog, readClassifiedKinds, readRecordedCode]
  · simp only [handleRead, h]
    simp [addLog, readClassifiedKinds, readRecordedCode]
  · simp only [handleRead, h]
    cases iT <;> simp [addLog, readClassifiedKinds, readRecordedCode]
  · simp only [handleRead, h]
    simp [addLog, readClassifiedKinds, readRecordedCode]
  · simp only [handleRead, h]
    simp [addLog, readClassifiedKinds, readRecordedCode]
  · simp only [handleRead, h]
    simp [addLog, readClassifiedKinds, readRecordedCode]

theorem addLog_steps (env : Env) (st : EngineSt) (k s : String) (l : LogEvent)
    (hs : stepOK s) (h : logStepsOK st) : logStepsOK (addLog env st k s l) := by
  unfold logStepsOK at h ⊢
  rw [addLog_pairs]
  intro p hp
  rcases List.mem_append.mp hp with hp | hp
  · exact h p hp
  · simp only [List.mem_singleton] at hp
    subst hp
    exact hs

theorem handleRead_steps (env : Env) (st : EngineSt) (iT : Bool) (step : String)
    (hs : stepOK step) (h : logStepsOK st) : logStepsOK (handleRead env st iT step).1 := by
  unfold logStepsOK at h ⊢
  rw [handleRead_pairs]
  intro p hp
  rcases List.mem_append.mp hp with hp | hp
  · exact h p hp
  · rcases List.mem_map.mp hp with ⟨k, hk, hpk⟩
    subst hpk
    exact hs

theorem writePairs_snd (step : String) (o : WriteOutcome) (p : String × String)
    (hp : p ∈ writePairs step o) : p.2 = step ∨ p.2 = StepSendText := by
  rcases o <;> simp [writePairs] at hp <;> rcases hp with rfl | rfl <;> simp

theorem handleWrite_steps (env : Env) (st : EngineSt) (iT : Bool) (step : String)
    (hs : stepOK step) (h : logStepsOK st) : logStepsOK (handleWrite env st iT step).1 := by
  unfold logStepsOK at h ⊢
  rw [handleWrite_pairs]
  intro p hp
  rcases List.mem_append.mp hp with hp | hp
  · exact h p hp
  · rcases writePairs_snd step env.writeOut p hp with h2 | h2
    · rw [h2]
      exact hs
    · rw [h2]
      right
      left
      rfl

theorem clientClose_steps (env : Env) (st : EngineSt)
    (h : logStepsOK st) : logStepsOK (clientClose env st) := by
  unfold logStepsOK at h ⊢
  rw [clientClose_pairs]
  intro p hp
  rcases List.mem_append.mp hp with hp | hp
  · exact h p hp
  · have hcc : stepOK StepClientClose := by
      right; right; right; left; rfl
    rcases he : env.closeWriteErr with _ | e <;>
      simp [clientClosePairs, he] at hp <;> rcases hp with rfl | rfl <;> exact hcc

theorem readLoop_steps (env : Env) (wt : Test) (fuel : Nat) (st : EngineSt)
    (h : logStepsOK st) : logStepsOK (readLoop env wt fuel st).1 := by
  induction fuel generalizing st with
  | zero => exact h
  | succ n ih =>
    unfold readLoop
    dsimp only
    have hrm : stepOK StepReadMessage := by
      right; right; left; rfl
    split_ifs with hc hb
    · exact handleRead_steps env st false StepReadMessage hrm h
    · exact ih _ (handleRead_steps env st false StepReadMessage hrm h)
    · exact h

theorem closeCheck_steps (env : Env) (wt : Test) (st : EngineSt)
    (h : logStepsOK st) : logStepsOK (closeCheck env wt st) := by
  unfold closeCheck
  have h1 : stepOK StepExpectedServerClose := by
    right; right; right; right; left; rfl
  have h2 : stepOK StepUnexpectedServerClose := by
    right; right; right; right; right; rfl
  split_ifs with he
  · by_cases hb : (handleRead env st false StepExpectedServerClose).2 = true
    · rw [if_pos hb]
      exact handleRead_steps env st false StepExpectedServerClose h1 h
    · rw [if_neg hb]
      exact clientClose_steps env _ (handleRead_steps env st false StepExpectedServerClose h1 h)
  · by_cases hb : (handleRead env st true StepUnexpectedServerClose).2 = true
    · rw [if_pos hb]
      exact handleRead_steps env st true StepUnexpectedServerClose h2 h
    · rw [if_neg hb]
      exact clientClose_steps env _ (handleRead_steps env st true StepUnexpectedServerClose h2 h)

theorem afterSend_steps (env : Env) (wt : Test) (st : EngineSt)
    (h : logStepsOK st) : logStepsOK (afterSend env wt st) := by
  unfold afterSend
  dsimp only
  by_cases hb : (readLoop env wt (wt.expectMessages - st.wr.messagesReceived).toNat st).2 = true
  · rw [if_pos hb]
    exact readLoop_steps env wt _ st h
  · rw [if_neg hb]
    exact closeCheck_steps env wt _ (readLoop_steps env wt _ st h)

theorem afterConnect_steps (env : Env) (wt : Test) (st : EngineSt)
    (h : logStepsOK st) : logStepsOK (afterConnect env wt st) := by
  unfold afterConnect
  have hst : stepOK StepSendText := by
    right; left; rfl
  split_ifs with hs
  · by_cases hb : (handleWrite env st false StepSendText).2 = true
    · rw [if_pos hb]
      exact handleWrite_steps env st false StepSendText hst h
    · rw [if_neg hb]
      exact afterSend_steps env wt _ (handleWrite_steps env st false StepSendText hst h)
  · exact afterSend_steps env wt st h

theorem runConnectedTest_steps (env : Env) (wt : Test) :
    ∀ p ∈ (runConnectedTest env wt).log.map kindStep, stepOK p.2 := by
  have hc : stepOK StepConnect := by
    left; rfl
  unfold runConnectedTest
  rcases hd : env.dialErr with _ | e
  · dsimp only
    refine afterConnect_steps env wt _ ?_
    intro p hp
    refine addLog_steps env _ LogConnectSuccess StepConnect {} hc ?_ p hp
    refine addLog_steps env _ LogConnect StepConnect {} hc ?_
    intro q hq
    simp at hq
  · dsimp only
    refine addLog_steps env _ LogConnectFail StepConnect _ hc ?_
    refine addLog_steps env _ LogConnect StepConnect {} hc ?_
    intro q hq
    simp at hq

theorem runConnectedTest_inv (env : Env) (wt : Test) :
    (runConnectedTest env wt).messagesReceived =
      ((runConnectedTest env wt).messages.length : Int) := by
  unfold runConnectedTest
  rcases hd : env.dialErr with _ | e
  · dsimp only
    exact afterConnect_inv env wt _ rfl
  · dsimp only
    rfl

theorem runConnectedTest_closeOK_code (env : Env) (wt : Test)
    (h : (runConnectedTest env wt).closeOK = true) :
    (runConnectedTest env wt).serverCloseCode = 0 := by
  unfold runConnectedTest at h ⊢
  rcases hd : env.dialErr with _ | e
  · rw [hd] at h
    dsimp only at h ⊢
    exact afterConnect_closeOK_code env wt _ rfl h
  · rw [hd] at h
    dsimp only at h
    simp [addLog_closeOK] at h

/-- Claim C9: in every returned result `messages_received` equals the number
of received messages; one read attempt adds one to both exactly when it
succeeds and leaves both unchanged otherwise. -/
theorem claim_C9 :
    (∀ env wt, (testWS env wt).1.messagesReceived =
      ((testWS env wt).1.messages.length : Int)) ∧
    (∀ env st iT step,
      (handleRead env st iT step).1.wr.messagesReceived =
        st.wr.messagesReceived + msgDelta (env.readAt st.readIdx) ∧
      ((handleRead env st iT step).1.wr.messages.length : Int) =
        st.wr.messages.length + msgDelta (env.readAt st.readIdx)) := by
  constructor
  · intro env wt
    unfold testWS
    split_ifs with h1 h2 h3
    · rfl
    · rfl
    · rfl
    · exact runConnectedTest_inv env _
  · intro env st iT step
    exact ⟨handleRead_count env st iT step, handleRead_len env st iT step⟩

/-- Claim C10: in every returned result, a successful client close implies
that no peer close code was recorded. -/
theorem claim_C10 (env : Env) (wt : Test)
    (h : (testWS env wt).1.closeOK = true) :
    (testWS env wt).1.serverCloseCode = 0 := by
  unfold testWS at h ⊢
  dsimp only at h ⊢
  split_ifs at h ⊢ with h1 h2 h3
  exact runConnectedTest_closeOK_code env _ h

theorem claim_C10_witness : (testWS envC10w tC10w).1.serverCloseCode = 0 :=
  claim_C10 envC10w tC10w (by decide)

/-- Claim C5 counterexample: a run whose first read-deadline set fails
still returns a nil error from `testWS`, with the failure only logged. -/
theorem claim_C5_counterexample :
    (testWS envC5x tC5x).1.log.map LogEvent.kind =
      [LogConnect, LogConnectSuccess, LogSetReadDeadlineFailed] ∧
    (testWS envC5x tC5x).2 = none := by
  constructor
  · rfl
  · rfl

/-- Claim C5 as amended: `testWS` raises an error exactly for an empty test
name, an identifier-generation failure, or a test-serialization failure;
deadline-set failures never surface as an engine error. -/
theorem claim_C5 (env : Env) (wt : Test) :
    (testWS env wt).2 ≠ none ↔
      (wt.name = "" ∨ env.uuidOk = false ∨ env.marshalOk = false) := by
  unfold testWS
  dsimp only
  by_cases h1 : wt.name = ""
  · rw [if_pos h1]
    simp [h1]
  · rw [if_neg h1]
    by_cases h2 : env.uuidOk = false
    · rw [if_pos h2]
      simp [h1, h2]
    · rw [if_neg h2]
      by_cases h3 : env.marshalOk = false
      · rw [if_pos h3]
        simp [h1, h2, h3]
      · rw [if_neg h3]
        simp [h1, h2, h3]


theorem applyDefaults_sendTextMessage (wt : Test) :
    (applyDefaults wt).sendTextMessage = wt.sendTextMessage := by
  unfold applyDefaults
  dsimp only
  split_ifs <;> rfl

theorem applyDefaults_expectMessages (wt : Test) :
    (applyDefaults wt).expectMessages = wt.expectMessages := by
  unfold applyDefaults
  dsimp only
  split_ifs <;> rfl

theorem applyDefaults_expectServerClose (wt : Test) :
    (applyDefaults wt).expectServerClose = wt.expectServerClose := by
  unfold applyDefaults
  dsimp only
  split_ifs <;> rfl

theorem applyDefaults_name (wt : Test) :
    (applyDefaults wt).name = wt.name := by
  unfold applyDefaults
  dsimp only
  split_ifs <;> rfl

theorem readPairs_mem_snd (step : String) (o : ReadOutcome) (p : String × String)
    (hp : p ∈ readPairs step o) : p.2 = step := by
  rcases List.mem_map.mp hp with ⟨k, hk, hpk⟩
  subst hpk
  rfl

theorem readPairs_countRM (step : String) (o : ReadOutcome)
    (hdl : ∀ e, o ≠ ReadOutcome.deadlineFail e) :
    (readPairs step o).countP (fun p => p.1 == LogReadMessage) = 1 := by
  cases o with
  | deadlineFail e => exact absurd rfl (hdl e)
  | closeErr code text =>
    simp [readPairs, readClassifiedKinds, LogReadMessage, LogServerClosedConnection]
  | netTimeout =>
    simp [readPairs, readClassifiedKinds, LogReadMessage, LogReadMessageTimeout]
  | netErr e =>
    simp [readPairs, readClassifiedKinds, LogReadMessage, LogReadMessageNetError]
  | otherErr e =>
    simp [readPairs, readClassifiedKinds, LogReadMessage, LogReadMessageError]
  | success t d =>
    simp [readPairs, readClassifiedKinds, LogReadMessage, LogReadMessageSuccess]

theorem clientClosePairs_countRM (env : Env) :
    (clientClosePairs env).countP (fun p => p.1 == LogReadMessage) = 0 := by
  rcases he : env.closeWriteErr with _ | e <;>
    simp [clientClosePairs, he, LogReadMessage, LogClientCloseConnection,
      LogClientCloseConnectionSuccess, LogClientCloseConnectionFailed]

theorem clientClosePairs_kind (env : Env) (p : String × String)
    (hp : p ∈ clientClosePairs env) : ¬(p.1 = LogReadMessage) := by
  rcases he : env.closeWriteErr with _ | e <;>
    simp [clientClosePairs, he] at hp <;> rcases hp with rfl | rfl <;>
    simp [LogReadMessage, LogClientCloseConnection,
      LogClientCloseConnectionSuccess, LogClientCloseConnectionFailed]

theorem writePairs_kind (step : String) (o : WriteOutcome) (p : String × String)
    (hp : p ∈ writePairs step o) : ¬(p.1 = LogReadMessage) := by
  rcases o <;> simp [writePairs] at hp <;> rcases hp with rfl | rfl <;>
    simp [LogReadMessage, LogWriteMessage, LogSetWriteDeadlineFailed,
      LogServerClosedConnection, LogWriteMessageTimeout, LogWriteMessageNetError,
      LogWriteMessageError, LogWriteMessageSuccess]

theorem writePairs_countRM (step : String) (o : WriteOutcome) :
    (writePairs step o).countP (fun p => p.1 == LogReadMessage) = 0 := by
  rcases o <;>
    simp [writePairs, LogReadMessage, LogWriteMessage, LogSetWriteDeadlineFailed,
      LogServerClosedConnection, LogWriteMessageTimeout, LogWriteMessageNetError,
      LogWriteMessageError, LogWriteMessageSuccess]

/-- The close-check read logs exactly one `read_message` marker, tagged with
one of the two close-check steps. -/
theorem closeCheck_count (env : Env) (wt : Test) (st : EngineSt)
    (hdl : ∀ e, env.readAt st.readIdx ≠ ReadOutcome.deadlineFail e) :
    ((closeCheck env wt st).wr.log.map kindStep).countP (fun p => p.1 == LogReadMessage) =
      (st.wr.log.map kindStep).countP (fun p => p.1 == LogReadMessage) + 1 ∧
    ∀ p ∈ (closeCheck env wt st).wr.log.map kindStep, p.1 = LogReadMessage →
      p ∈ st.wr.log.map kindStep ∨
        p.2 = StepExpectedServerClose ∨ p.2 = StepUnexpectedServerClose := by
  unfold closeCheck
  split_ifs with he
  · by_cases hb : (handleRead env st false StepExpectedServerClose).2 = true
    · rw [if_pos hb]
      constructor
      · rw [handleRead_pairs, List.countP_append, readPairs_countRM _ _ hdl]
      · intro p hp hPk
        rw [handleRead_pairs] at hp
        rcases List.mem_append.mp hp with hp | hp
        · exact Or.inl hp
        · exact Or.inr (Or.inl (readPairs_mem_snd _ _ _ hp))
    · rw [if_neg hb]
      constructor
      · rw [clientClose_pairs, List.countP_append, handleRead_pairs,
          List.countP_append, readPairs_countRM _ _ hdl, clientClosePairs_countRM]
      · intro p hp hPk
        rw [clientClose_pairs] at hp
        rcases List.mem_append.mp hp with hp | hp
        · rw [handleRead_pairs] at hp
          rcases List.mem_append.mp hp with hp | hp
          · exact Or.inl hp
          · exact Or.inr (Or.inl (readPairs_mem_snd _ _ _ hp))
        · exact absurd hPk (clientClosePairs_kind env p hp)
  · by_cases hb : (handleRead env st true StepUnexpectedServerClose).2 = true
    · rw [if_pos hb]
      constructor
      · rw [handleRead_pairs, List.countP_append, readPairs_countRM _ _ hdl]
      · intro p hp hPk
        rw [handleRead_pairs] at hp
        rcases List.mem_append.mp hp with hp | hp
        · exact Or.inl hp
        · exact Or.inr (Or.inr (readPairs_mem_snd _ _ _ hp))
    · rw [if_neg hb]
      constructor
      · rw [clientClose_pairs, List.countP_append, handleRead_pairs,
          List.countP_append, readPairs_countRM _ _ hdl, clientClosePairs_countRM]
      · intro p hp hPk
        rw [clientClose_pairs] at hp
        rcases List.mem_append.mp hp with hp | hp
        · rw [handleRead_pairs] at hp
          rcases List.mem_append.mp hp with hp | hp
          · exact Or.inl hp
          · exact Or.inr (Or.inr (readPairs_mem_snd _ _ _ hp))
        · exact absurd hPk (clientClosePairs_kind env p hp)

/-- With the expected message count already reached, the read loop body runs
zero times and the engine goes straight to the close check. -/
theorem afterSend_skip (env : Env) (wt : Test) (st : EngineSt)
    (hexp : wt.expectMessages ≤ st.wr.messagesReceived) :
    afterSend env wt st = closeCheck env wt st := by
  unfold afterSend
  have hfuel : (wt.expectMessages - st.wr.messagesReceived).toNat = 0 :=
    Int.toNat_eq_zero.mpr (by omega)
  rw [hfuel]
  rfl

theorem afterConnect_count (env : Env) (wt : Test) (st : EngineSt)
    (hsend : wt.sendTextMessage = "" ∨ env.writeOut = WriteOutcome.success)
    (hexp : wt.expectMessages ≤ st.wr.messagesReceived)
    (hdl : ∀ e, env.readAt st.readIdx ≠ ReadOutcome.deadlineFail e) :
    ((afterConnect env wt st).wr.log.map kindStep).countP (fun p => p.1 == LogReadMessage) =
      (st.wr.log.map kindStep).countP (fun p => p.1 == LogReadMessage) + 1 ∧
    ∀ p ∈ (afterConnect env wt st).wr.log.map kindStep, p.1 = LogReadMessage →
      p ∈ st.wr.log.map kindStep ∨
        p.2 = StepExpectedServerClose ∨ p.2 = StepUnexpectedServerClose := by
  unfold afterConnect
  by_cases hA : wt.sendTextMessage ≠ ""
  · rw [if_pos hA]
    dsimp only
    have hB : env.writeOut = WriteOutcome.success := by
      rcases hsend with hs | hs
      · exact absurd hs hA
      · exact hs
    have hsnd : (handleWrite env st false StepSendText).2 = false := by
      rw [handleWrite_snd, hB]
      rfl
    rw [hsnd, if_neg Bool.false_ne_true]
    rw [afterSend_skip env wt _ (by rw [handleWrite_count]; exact hexp)]
    obtain ⟨hc, hm⟩ := closeCheck_count env wt (handleWrite env st false StepSendText).1
      (by rw [handleWrite_readIdx]; exact hdl)
    constructor
    · rw [hc, handleWrite_pairs, List.countP_append, writePairs_countRM]
    · intro p hp hPk
      rcases hm p hp hPk with hp2 | h2
      · rw [handleWrite_pairs] at hp2
        rcases List.mem_append.mp hp2 with hp2 | hp2
        · exact Or.inl hp2
        · exact absurd hPk (writePairs_kind _ _ _ hp2)
      · exact Or.inr h2
  · rw [if_neg hA]
    rw [afterSend_skip env wt st hexp]
    exact closeCheck_count env wt st hdl

/-- A successful dial leads to the post-connect phase from the two-event
connect state. -/
theorem runConnectedTest_ok (env : Env) (wt : Test) (hd : env.dialErr = none) :
    runConnectedTest env wt = (afterConnect env wt (connectedSt env wt)).wr := by
  unfold runConnectedTest
  rw [hd]
  rfl


theorem claim_C5_witness : (testWS envC5w tC5w).2 ≠ none :=
  (claim_C5 envC5w tC5w).mpr (Or.inl rfl)

/-- Claim C6 counterexample: the connect, send-text and client-close step
tags are all the empty string, so the six step tags are neither distinct nor
non-empty. -/
theorem claim_C6_counterexample :
    StepConnect = "" ∧ StepSendText = "" ∧ StepClientClose = "" ∧
    StepConnect = StepSendText ∧ StepSendText = StepClientClose := by
  refine ⟨rfl, rfl, rfl, rfl, rfl⟩

/-- Claim C6 as amended: every logged event carries the step tag of the
phase that produced it, drawn from the six step-tag constants; the
read-message and the two close-check tags are distinct and non-empty, but
the connect, send-text and client-close tags are all the empty string, so
only the read-loop and close-check phases are recoverable from the tag. -/
theorem claim_C6 :
    (StepReadMessage ≠ "" ∧ StepExpectedServerClose ≠ "" ∧
     StepUnexpectedServerClose ≠ "" ∧
     StepReadMessage ≠ StepExpectedServerClose ∧
     StepReadMessage ≠ StepUnexpectedServerClose ∧
     StepExpectedServerClose ≠ StepUnexpectedServerClose ∧
     StepConnect = "" ∧ StepSendText = "" ∧ StepClientClose = "") ∧
    ∀ env wt v, v ∈ (testWS env wt).1.log → stepOK v.step := by
  constructor
  · refine ⟨?_, ?_, ?_, ?_, ?_, ?_, rfl, rfl, rfl⟩ <;> decide
  · intro env wt v hv
    unfold testWS at hv
    dsimp only at hv
    split_ifs at hv with h1 h2 h3
    · simp [TestResult.log] at hv
    · simp [TestResult.log] at hv
    · simp [TestResult.log] at hv
    · have := runConnectedTest_steps env (applyDefaults wt) (kindStep v)
        (List.mem_map_of_mem kindStep hv)
      exact this

theorem claim_C6_witness :
    stepOK ((testWS envC6w tC6w).1.log.getLastD {}).step := by
  refine claim_C6.2 envC6w tC6w _ ?_
  decide

/-- Claim C7: a failed connection attempt terminates the run normally: nil
error, `connect_ok`, `close_ok` false, no messages, no close code, and the
log is the connect event followed by a `connect_fail` event carrying the
error. -/
theorem claim_C7 (env : Env) (wt : Test) (e : String)
    (h1 : wt.name ≠ "") (h2 : env.uuidOk = true) (h3 : env.marshalOk = true)
    (hd : env.dialErr = some e) :
    (testWS env wt).2 = none ∧
    (testWS env wt).1.connectOK = false ∧
    (testWS env wt).1.closeOK = false ∧
    (testWS env wt).1.messagesReceived = 0 ∧
    (testWS env wt).1.serverCloseCode = 0 ∧
    (testWS env wt).1.log.map (fun v => (v.kind, v.step, v.err)) =
      [(LogConnect, StepConnect, none), (LogConnectFail, StepConnect, some e)] := by
  unfold testWS
  dsimp only
  rw [if_neg h1, if_neg (by simp [h2]), if_neg (by simp [h3])]
  unfold runConnectedTest
  rw [hd]
  dsimp only
  refine ⟨rfl, ?_, ?_, ?_, ?_, ?_⟩ <;> simp [addLog]

theorem claim_C7_witness :
    (testWS envC7w tC7w).2 = none ∧
    (testWS envC7w tC7w).1.connectOK = false ∧
    (testWS envC7w tC7w).1.closeOK = false ∧
    (testWS envC7w tC7w).1.messagesReceived = 0 ∧
    (testWS envC7w tC7w).1.serverCloseCode = 0 ∧
    (testWS envC7w tC7w).1.log.map (fun v => (v.kind, v.step, v.err)) =
      [(LogConnect, StepConnect, none), (LogConnectFail, StepConnect, some "connection refused")] :=
  claim_C7 envC7w tC7w "connection refused" (by decide) rfl rfl rfl


/-- Claim C3 counterexample: with `expect_messages = 0`, a successful
connect, no text to send, and a failing close-check read-deadline set, the
run performs no read and the log contains no `read_message` event. -/
theorem claim_C3_counterexample :
    tC3x.expectMessages = 0 ∧ tC3x.sendTextMessage = "" ∧
    (testWS envC3x tC3x).2 = none ∧
    (testWS envC3x tC3x).1.connectOK = true ∧
    ((testWS envC3x tC3x).1.log.filter fun v => v.kind == LogReadMessage).length = 0 := by
  decide

/-- Claim C3 as amended: with `expect_messages = 0` and a successful connect
(and optional send), the read loop body runs zero times; provided the
close-check read-deadline set does not fail, the close check performs
exactly one read, so the log contains exactly one `read_message` event,
tagged with a close-check step. -/
theorem claim_C3 (env : Env) (wt : Test)
    (h1 : wt.name ≠ "") (h2 : env.uuidOk = true) (h3 : env.marshalOk = true)
    (hd : env.dialErr = none)
    (hsend : wt.sendTextMessage = "" ∨ env.writeOut = WriteOutcome.success)
    (hexp : wt.expectMessages = 0)
    (hdl : ∀ e, env.readAt 0 ≠ ReadOutcome.deadlineFail e) :
    ((testWS env wt).1.log.filter fun v => v.kind == LogReadMessage).length = 1 ∧
    ∀ v ∈ (testWS env wt).1.log, v.kind = LogReadMessage →
      (v.step = StepExpectedServerClose ∨ v.step = StepUnexpectedServerClose) := by
  have htw : testWS env wt = (runConnectedTest env (applyDefaults wt), none) := by
    unfold testWS
    dsimp only
    rw [if_neg h1, if_neg (by simp [h2]), if_neg (by simp [h3])]
  rw [htw, runConnectedTest_ok env _ hd]
  dsimp only
  obtain ⟨hc, hm⟩ := afterConnect_count env (applyDefaults wt)
    (connectedSt env (applyDefaults wt))
    (by rw [applyDefaults_sendTextMessage]; exact hsend)
    (by rw [applyDefaults_expectMessages, hexp]; exact le_of_eq rfl)
    hdl
  have hcs : (connectedSt env (applyDefaults wt)).wr.log.map kindStep =
      [(LogConnect, StepConnect), (LogConnectSuccess, StepConnect)] := rfl
  constructor
  · rw [hcs] at hc
    have h0 : List.countP (fun p => p.1 == LogReadMessage)
        ([(LogConnect, StepConnect), (LogConnectSuccess, StepConnect)] :
          List (String × String)) = 0 := by decide
    rw [h0] at hc
    rw [List.countP_map] at hc
    rw [← List.countP_eq_length_filter]
    exact hc
  · intro v hv hk
    rcases hm (kindStep v) (List.mem_map_of_mem kindStep hv) hk with hin | h2
    · rw [hcs] at hin
      simp only [List.mem_cons, List.mem_singleton, List.not_mem_nil, or_false] at hin
      rcases hin with hin | hin
      · have hk2 : v.kind = LogConnect := congrArg Prod.fst hin
        rw [hk] at hk2
        exact absurd hk2 (by decide)
      · have hk2 : v.kind = LogConnectSuccess := congrArg Prod.fst hin
        rw [hk] at hk2
        exact absurd hk2 (by decide)
    · exact h2

theorem claim_C3_witness :
    ((testWS envC3w tC3w).1.log.filter fun v => v.kind == LogReadMessage).length = 1 ∧
    ∀ v ∈ (testWS envC3w tC3w).1.log, v.kind = LogReadMessage →
      (v.step = StepExpectedServerClose ∨ v.step = StepUnexpectedServerClose) :=
  claim_C3 envC3w tC3w (by decide) rfl rfl rfl (Or.inl rfl) rfl
    (fun e h => by simp [envC3w] at h)

/-- Claim C4: with `expect_server_close = 0`, the close-check read runs with
the `unexpected_server_close` tag and `ignoreTimeout` set: a timeout is
logged as `read_message_timeout` and the run proceeds to the client-close
phase; any other read error is logged under its classified kind and ends the
run, whose result is returned with a nil engine error. -/
theorem claim_C4 (env : Env) (wt : Test) (st : EngineSt)
    (he : wt.expectServerClose = 0) :
    (env.readAt st.readIdx = ReadOutcome.netTimeout →
      (closeCheck env wt st).wr.log.map kindStep =
        st.wr.log.map kindStep ++
          [(LogReadMessage, StepUnexpectedServerClose),
           (LogReadMessageTimeout, StepUnexpectedServerClose)] ++ clientClosePairs env) ∧
    (∀ e, env.readAt st.readIdx = ReadOutcome.netErr e →
      (closeCheck env wt st).wr.log.map kindStep =
        st.wr.log.map kindStep ++
          [(LogReadMessage, StepUnexpectedServerClose),
           (LogReadMessageNetError, StepUnexpectedServerClose)]) ∧
    (∀ e, env.readAt st.readIdx = ReadOutcome.otherErr e →
      (closeCheck env wt st).wr.log.map kindStep =
        st.wr.log.map kindStep ++
          [(LogReadMessage, StepUnexpectedServerClose),
           (LogReadMessageError, StepUnexpectedServerClose)]) ∧
    (∀ code text, env.readAt st.readIdx = ReadOutcome.closeErr code text →
      (closeCheck env wt st).wr.log.map kindStep =
        st.wr.log.map kindStep ++
          [(LogReadMessage, StepUnexpectedServerClose),
           (LogServerClosedConnection, StepUnexpectedServerClose)]) ∧
    (wt.name ≠ "" → env.uuidOk = true → env.marshalOk = true →
      (testWS env wt).2 = none) := by
  have hcc : closeCheck env wt st =
      (if (handleRead env st true StepUnexpectedServerClose).2 = true then
        (handleRead env st true StepUnexpectedServerClose).1
      else clientClose env (handleRead env st true StepUnexpectedServerClose).1) := by
    unfold closeCheck
    rw [if_neg (by simp [he])]
  refine ⟨?_, ?_, ?_, ?_, ?_⟩
  · intro ho
    have hb : (handleRead env st true StepUnexpectedServerClose).2 = false := by
      rw [handleRead_snd, ho]
      rfl
    rw [hcc, hb, if_neg Bool.false_ne_true, clientClose_pairs, handleRead_pairs, ho]
    simp [readPairs, readClassifiedKinds]
  · intro e ho
    have hb : (handleRead env st true StepUnexpectedServerClose).2 = true := by
      rw [handleRead_snd, ho]
      rfl
    rw [hcc, hb, if_pos rfl, handleRead_pairs, ho]
    simp [readPairs, readClassifiedKinds]
  · intro e ho
    have hb : (handleRead env st true StepUnexpectedServerClose).2 = true := by
      rw [handleRead_snd, ho]
      rfl
    rw [hcc, hb, if_pos rfl, handleRead_pairs, ho]
    simp [readPairs, readClassifiedKinds]
  · intro code text ho
    have hb : (handleRead env st true StepUnexpectedServerClose).2 = true := by
      rw [handleRead_snd, ho]
      rfl
    rw [hcc, hb, if_pos rfl, handleRead_pairs, ho]
    simp [readPairs, readClassifiedKinds]
  · intro hn hu hm2
    unfold testWS
    dsimp only
    rw [if_neg hn, if_neg (by simp [hu]), if_neg (by simp [hm2])]

theorem claim_C4_witness :
    (closeCheck envC4w tC4w stC4w).wr.log.map kindStep =
      stC4w.wr.log.map kindStep ++
        [(LogReadMessage, StepUnexpectedServerClose),
         (LogReadMessageTimeout, StepUnexpectedServerClose)] ++ clientClosePairs envC4w :=
  (claim_C4 envC4w tC4w stC4w rfl).1 rfl

end WsMon
